import Mathlib

/-!
Shallow embedding of the LC-3 virtual machine implemented in
src/lc3_vm (flags.rs, traps.rs, opcodes.rs, virtual_machine.rs).

Machine words (Rust u16) are modelled as Nat values below 65536 with
wrapping arithmetic written as an explicit mod; u8 fields are Nat values
below 256.  The 65536-word memory array is modelled as a function from
addresses to words together with the explicit bounds check that array
indexing performs.  Fallible operations return Except; the execute step
returns a dedicated result type with a separate outcome for a Rust
panic, because the TRAP arm of VM::execute is a todo! macro.
Error payloads keep the constructor structure of VMError; the formatted
message strings are abbreviated to the fixed prefix used at each site.
-/

namespace LC3

def MEMORY_MAX : Nat := 65536

/-! ### flags.rs -/

inductive ConditionFlags where
  | POS
  | ZRO
  | NEG

/-- The From impl for u16 in flags.rs: POS = 0, ZRO = 2, NEG = 4. -/
def ConditionFlags.toU16 : ConditionFlags → Nat
  | ConditionFlags.POS => 0
  | ConditionFlags.ZRO => 2
  | ConditionFlags.NEG => 4

/-! ### traps.rs -/

inductive TrapError where
  | InvalidTrap (value : Nat)
deriving DecidableEq

inductive Trap where
  | GetC
  | Out
  | Puts
  | In
  | Putsp
  | Halt
deriving DecidableEq

/-- Trap vector dispatch table from traps.rs. -/
def Trap.try_from (value : Nat) : Except TrapError Trap :=
  if value = 0x20 then Except.ok Trap.GetC
  else if value = 0x21 then Except.ok Trap.Out
  else if value = 0x22 then Except.ok Trap.Puts
  else if value = 0x23 then Except.ok Trap.In
  else if value = 0x24 then Except.ok Trap.Putsp
  else if value = 0x25 then Except.ok Trap.Halt
  else Except.error (TrapError.InvalidTrap value)

/-! ### opcodes.rs -/

inductive OpcodeError where
  | InvalidOpcode
deriving DecidableEq

inductive Opcode where
  | BR (n z p : Bool) (offset : Nat)
  | ADD (dr sr1 : Nat) (mode : Bool) (sr2 : Nat)
  | LD (dr : Nat) (offset : Nat)
  | ST (sr : Nat) (offset : Nat)
  | JSR (mode : Bool) (offset : Nat)
  | AND (dr sr1 : Nat) (mode : Bool) (sr2 : Nat)
  | LDR (dr base_r : Nat) (offset : Nat)
  | STR (sr base_r : Nat) (offset : Nat)
  | RTI
  | NOT (dr sr : Nat)
  | LDI (dr : Nat) (offset : Nat)
  | STI (sr : Nat) (offset : Nat)
  | JMP (base_r : Nat)
  | RES
  | LEA (dr : Nat) (offset : Nat)
  | TRAP (trap_vec : Nat)
deriving DecidableEq

/-- Opcode::try_from in opcodes.rs.  Each Rust `try_into::<u8>()` on an
already-masked field is embedded as the explicit bound check `x ≤ 255`
feeding the InvalidOpcode error branch. -/
def decode (instruction : Nat) : Except OpcodeError Opcode :=
  if instruction >>> 12 = 0 then
    Except.ok (Opcode.BR ((instruction &&& 0x0800) >>> 11 == 1)
      ((instruction &&& 0x0400) >>> 10 == 1)
      ((instruction &&& 0x0200) >>> 9 == 1)
      (instruction &&& 0x01FF))
  else if instruction >>> 12 = 1 then
    if (instruction &&& 0x0E00) >>> 9 ≤ 255 ∧ (instruction &&& 0x01C0) >>> 6 ≤ 255 ∧
        instruction &&& 0x001F ≤ 255 then
      Except.ok (Opcode.ADD ((instruction &&& 0x0E00) >>> 9) ((instruction &&& 0x01C0) >>> 6)
        ((instruction &&& 0x0020) >>> 5 == 1) (instruction &&& 0x001F))
    else Except.error OpcodeError.InvalidOpcode
  else if instruction >>> 12 = 2 then
    if (instruction &&& 0x0E00) >>> 9 ≤ 255 then
      Except.ok (Opcode.LD ((instruction &&& 0x0E00) >>> 9) (instruction &&& 0x01FF))
    else Except.error OpcodeError.InvalidOpcode
  else if instruction >>> 12 = 3 then
    if (instruction &&& 0x0E00) >>> 9 ≤ 255 then
      Except.ok (Opcode.ST ((instruction &&& 0x0E00) >>> 9) (instruction &&& 0x01FF))
    else Except.error OpcodeError.InvalidOpcode
  else if instruction >>> 12 = 4 then
    Except.ok (Opcode.JSR ((instruction &&& 0x0800) >>> 11 == 1) (instruction &&& 0x07FF))
  else if instruction >>> 12 = 5 then
    if (instruction &&& 0x0E00) >>> 9 ≤ 255 ∧ (instruction &&& 0x01C0) >>> 6 ≤ 255 ∧
        instruction &&& 0x001F ≤ 255 then
      Except.ok (Opcode.AND ((instruction &&& 0x0E00) >>> 9) ((instruction &&& 0x01C0) >>> 6)
        ((instruction &&& 0x0020) >>> 5 == 1) (instruction &&& 0x001F))
    else Except.error OpcodeError.InvalidOpcode
  else if instruction >>> 12 = 6 then
    if (instruction &&& 0x0E00) >>> 9 ≤ 255 ∧ (instruction &&& 0x01C0) >>> 6 ≤ 255 ∧
        instruction &&& 0x003F ≤ 255 then
      Except.ok (Opcode.LDR ((instruction &&& 0x0E00) >>> 9) ((instruction &&& 0x01C0) >>> 6)
        (instruction &&& 0x003F))
    else Except.error OpcodeError.InvalidOpcode
  else if instruction >>> 12 = 7 then
    if (instruction &&& 0x0E00) >>> 9 ≤ 255 ∧ (instruction &&& 0x01C0) >>> 6 ≤ 255 ∧
        instruction &&& 0x003F ≤ 255 then
      Except.ok (Opcode.STR ((instruction &&& 0x0E00) >>> 9) ((instruction &&& 0x01C0) >>> 6)
        (instruction &&& 0x003F))
    else Except.error OpcodeError.InvalidOpcode
  else if instruction >>> 12 = 8 then Except.ok Opcode.RTI
  else if instruction >>> 12 = 9 then
    if (instruction &&& 0x0E00) >>> 9 ≤ 255 ∧ (instruction &&& 0x01C0) >>> 6 ≤ 255 then
      Except.ok (Opcode.NOT ((instruction &&& 0x0E00) >>> 9) ((instruction &&& 0x01C0) >>> 6))
    else Except.error OpcodeError.InvalidOpcode
  else if instruction >>> 12 = 10 then
    if (instruction &&& 0x0E00) >>> 9 ≤ 255 then
      Except.ok (Opcode.LDI ((instruction &&& 0x0E00) >>> 9) (instruction &&& 0x01FF))
    else Except.error OpcodeError.InvalidOpcode
  else if instruction >>> 12 = 11 then
    if (instruction &&& 0x0E00) >>> 9 ≤ 255 then
      Except.ok (Opcode.STI ((instruction &&& 0x0E00) >>> 9) (instruction &&& 0x01FF))
    else Except.error OpcodeError.InvalidOpcode
  else if instruction >>> 12 = 12 then
    if (instruction &&& 0x01C0) >>> 6 ≤ 255 then
      Except.ok (Opcode.JMP ((instruction &&& 0x01C0) >>> 6))
    else Except.error OpcodeError.InvalidOpcode
  else if instruction >>> 12 = 13 then Except.ok Opcode.RES
  else if instruction >>> 12 = 14 then
    if (instruction &&& 0x0E00) >>> 9 ≤ 255 then
      Except.ok (Opcode.LEA ((instruction &&& 0x0E00) >>> 9) (instruction &&& 0x01FF))
    else Except.error OpcodeError.InvalidOpcode
  else if instruction >>> 12 = 15 then
    if instruction &&& 0x00FF ≤ 255 then
      Except.ok (Opcode.TRAP (instruction &&& 0x00FF))
    else Except.error OpcodeError.InvalidOpcode
  else Except.error OpcodeError.InvalidOpcode

/-- Spec-side decoder, transcribed from the instruction-format table of
the specification (section 4.2): the top four bits select the opcode
class and every field is read from its fixed bit position by a shift and
mask.  The JSR row carries the mode bit (bit 11) together with the full
low 11-bit field in both modes; the base register is only extracted from
that field during execution (see the C6 correction).  The final arm is
unreachable for 16-bit words. -/
def decodeSpec (w : Nat) : Opcode :=
  if w >>> 12 = 0 then
    Opcode.BR ((w >>> 11) &&& 1 == 1) ((w >>> 10) &&& 1 == 1) ((w >>> 9) &&& 1 == 1)
      (w &&& 0x01FF)
  else if w >>> 12 = 1 then
    Opcode.ADD ((w >>> 9) &&& 7) ((w >>> 6) &&& 7) ((w >>> 5) &&& 1 == 1) (w &&& 0x001F)
  else if w >>> 12 = 2 then Opcode.LD ((w >>> 9) &&& 7) (w &&& 0x01FF)
  else if w >>> 12 = 3 then Opcode.ST ((w >>> 9) &&& 7) (w &&& 0x01FF)
  else if w >>> 12 = 4 then Opcode.JSR ((w >>> 11) &&& 1 == 1) (w &&& 0x07FF)
  else if w >>> 12 = 5 then
    Opcode.AND ((w >>> 9) &&& 7) ((w >>> 6) &&& 7) ((w >>> 5) &&& 1 == 1) (w &&& 0x001F)
  else if w >>> 12 = 6 then Opcode.LDR ((w >>> 9) &&& 7) ((w >>> 6) &&& 7) (w &&& 0x003F)
  else if w >>> 12 = 7 then Opcode.STR ((w >>> 9) &&& 7) ((w >>> 6) &&& 7) (w &&& 0x003F)
  else if w >>> 12 = 8 then Opcode.RTI
  else if w >>> 12 = 9 then Opcode.NOT ((w >>> 9) &&& 7) ((w >>> 6) &&& 7)
  else if w >>> 12 = 10 then Opcode.LDI ((w >>> 9) &&& 7) (w &&& 0x01FF)
  else if w >>> 12 = 11 then Opcode.STI ((w >>> 9) &&& 7) (w &&& 0x01FF)
  else if w >>> 12 = 12 then Opcode.JMP ((w >>> 6) &&& 7)
  else if w >>> 12 = 13 then Opcode.RES
  else if w >>> 12 = 14 then Opcode.LEA ((w >>> 9) &&& 7) (w &&& 0x01FF)
  else if w >>> 12 = 15 then Opcode.TRAP (w &&& 0x00FF)
  else Opcode.RES

/-! ### virtual_machine.rs -/

/-- VMError from virtual_machine.rs.  The register accessors format the
offending index into the message; that index is kept as a Nat payload.
For the other constructors only the fixed part of the formatted message
is kept. -/
inductive VMError where
  | LoadProgram (msg : String)
  | ProgramCounter (msg : String)
  | Fetch (msg : String)
  | Flags (msg : String)
  | Decode (msg : String)
  | GetRegister (register : Nat)
  | ReadRegister (register : Nat)
  | Execute (msg : String)
  | Memory (msg : String)
deriving DecidableEq

/-- Outcome of a step of the machine: a normal Result value, or a Rust
panic (reachable through the todo! macro in the TRAP arm). -/
inductive ExecResult (α : Type) where
  | ok (value : α)
  | vmError (e : VMError)
  | panicked (msg : String)

structure VM where
  memory : Nat → Nat
  r0 : Nat
  r1 : Nat
  r2 : Nat
  r3 : Nat
  r4 : Nat
  r5 : Nat
  r6 : Nat
  r7 : Nat
  pc : Nat
  cond : Nat
  running : Bool

/-- Default::default for VM: zeroed memory and registers, PC = 0x3000. -/
def VM.default : VM :=
  { memory := fun _ => 0, r0 := 0, r1 := 0, r2 := 0, r3 := 0, r4 := 0, r5 := 0, r6 := 0,
    r7 := 0, pc := 0x3000, cond := 0, running := false }

/-- u16::wrapping_add. -/
def wrapping_add (a b : Nat) : Nat := (a + b) % MEMORY_MAX

/-- All stored words fit in 16 bits, as the Rust u16 fields guarantee. -/
def VM.wf (vm : VM) : Prop :=
  (∀ i, vm.memory i < MEMORY_MAX) ∧ vm.r0 < MEMORY_MAX ∧ vm.r1 < MEMORY_MAX ∧
    vm.r2 < MEMORY_MAX ∧ vm.r3 < MEMORY_MAX ∧ vm.r4 < MEMORY_MAX ∧ vm.r5 < MEMORY_MAX ∧
    vm.r6 < MEMORY_MAX ∧ vm.r7 < MEMORY_MAX ∧ vm.pc < MEMORY_MAX ∧ vm.cond < MEMORY_MAX

/-- VM::get_register_value: indexed read of r0-r7, PC (8), COND (9). -/
def VM.get_register_value (vm : VM) (register : Nat) : Except VMError Nat :=
  if register = 0 then Except.ok vm.r0
  else if register = 1 then Except.ok vm.r1
  else if register = 2 then Except.ok vm.r2
  else if register = 3 then Except.ok vm.r3
  else if register = 4 then Except.ok vm.r4
  else if register = 5 then Except.ok vm.r5
  else if register = 6 then Except.ok vm.r6
  else if register = 7 then Except.ok vm.r7
  else if register = 8 then Except.ok vm.pc
  else if register = 9 then Except.ok vm.cond
  else Except.error (VMError.ReadRegister register)

/-- VM::get_register used as a read of the referenced register. -/
def VM.get_register (vm : VM) (register : Nat) : Except VMError Nat :=
  if register = 0 then Except.ok vm.r0
  else if register = 1 then Except.ok vm.r1
  else if register = 2 then Except.ok vm.r2
  else if register = 3 then Except.ok vm.r3
  else if register = 4 then Except.ok vm.r4
  else if register = 5 then Except.ok vm.r5
  else if register = 6 then Except.ok vm.r6
  else if register = 7 then Except.ok vm.r7
  else if register = 8 then Except.ok vm.pc
  else if register = 9 then Except.ok vm.cond
  else Except.error (VMError.GetRegister register)

/-- VM::update_register: VM::get_register followed by assignment through
the mutable reference. -/
def VM.update_register (vm : VM) (register : Nat) (value : Nat) : Except VMError VM :=
  if register = 0 then Except.ok { vm with r0 := value }
  else if register = 1 then Except.ok { vm with r1 := value }
  else if register = 2 then Except.ok { vm with r2 := value }
  else if register = 3 then Except.ok { vm with r3 := value }
  else if register = 4 then Except.ok { vm with r4 := value }
  else if register = 5 then Except.ok { vm with r5 := value }
  else if register = 6 then Except.ok { vm with r6 := value }
  else if register = 7 then Except.ok { vm with r7 := value }
  else if register = 8 then Except.ok { vm with pc := value }
  else if register = 9 then Except.ok { vm with cond := value }
  else Except.error (VMError.GetRegister register)

/-- VM::read_word: self.memory.get(address) — Ok(Some) in bounds,
Ok(None) out of bounds, never Err. -/
def VM.read_word (vm : VM) (address : Nat) : Except VMError (Option Nat) :=
  if address < MEMORY_MAX then Except.ok (some (vm.memory address)) else Except.ok none

/-- VM::store_word: bounds-checked write. -/
def VM.store_word (vm : VM) (address value : Nat) : Except VMError VM :=
  if address < MEMORY_MAX then
    Except.ok { vm with memory := fun i => if i = address then value else vm.memory i }
  else Except.error (VMError.Memory ("invalid memory address"))

/-- VM::get_flags. -/
def VM.get_flags (vm : VM) : Except VMError Nat :=
  match vm.get_register_value 9 with
  | Except.ok v => Except.ok v
  | Except.error _ => Except.error (VMError.Flags ("get flags"))

/-- VM::get_pc. -/
def VM.get_pc (vm : VM) : Except VMError Nat :=
  match vm.get_register_value 8 with
  | Except.ok v => Except.ok v
  | Except.error _ => Except.error (VMError.ProgramCounter ("get PC"))

/-- VM::set_pc. -/
def VM.set_pc (vm : VM) (value : Nat) : Except VMError VM :=
  match vm.update_register 8 value with
  | Except.ok vm1 => Except.ok vm1
  | Except.error _ => Except.error (VMError.ProgramCounter ("set PC"))

/-- VM::add_to_pc: wrapping add onto the PC. -/
def VM.add_to_pc (vm : VM) (offset : Nat) : VM :=
  { vm with pc := wrapping_add vm.pc offset }

/-- VM::increment_pc. -/
def VM.increment_pc (vm : VM) : VM :=
  { vm with pc := wrapping_add vm.pc 1 }

/-- The flag value computed inside VM::update_flags: ZRO for zero, NEG
when the top bit of the 16-bit value is set, POS otherwise. -/
def new_flag_value (register_value : Nat) : Nat :=
  if register_value = 0 then ConditionFlags.ZRO.toU16
  else if register_value >>> 15 = 1 then ConditionFlags.NEG.toU16
  else ConditionFlags.POS.toU16

/-- VM::update_flags: read the given register and store the recomputed
flag value into COND (register 9).  The Ok(true) payload of the Rust
function is dropped; no caller uses it. -/
def VM.update_flags (vm : VM) (register : Nat) : Except VMError VM :=
  match vm.get_register register with
  | Except.error _ => Except.error (VMError.Flags ("read flags"))
  | Except.ok register_value =>
    match vm.update_register 9 (new_flag_value register_value) with
    | Except.error _ => Except.error (VMError.Flags ("update flags"))
    | Except.ok vm1 => Except.ok vm1

def sign_extend_5_bits (num : Nat) : Nat :=
  if num >>> 4 = 1 then num ||| 0xFFE0 else num

def sign_extend_6_bits (num : Nat) : Nat :=
  if num >>> 5 = 1 then num ||| 0xFFC0 else num

def sign_extend_9_bits (num : Nat) : Nat :=
  if num >>> 8 = 1 then num ||| 0xFE00 else num

def sign_extend_11_bits (num : Nat) : Nat :=
  if num >>> 10 = 1 then num ||| 0xF800 else num

/-- VM::execute.  Each arm mirrors the corresponding match arm of the
Rust function; map_err wrappers keep only the fixed context string.  The
RTI and RES arms only print and leave the state unchanged.  The TRAP arm
is the todo! macro, i.e. a panic. -/
def VM.execute (vm : VM) : Opcode → ExecResult VM
  | Opcode.BR n z p offset =>
    match vm.get_flags with
    | Except.error _ => ExecResult.vmError (VMError.Execute ("BR"))
    | Except.ok flags_value =>
      let offs := sign_extend_9_bits offset
      let vm1 := if n && (flags_value == ConditionFlags.NEG.toU16) then vm.add_to_pc offs else vm
      let vm2 := if z && (flags_value == ConditionFlags.ZRO.toU16) then vm1.add_to_pc offs else vm1
      let vm3 := if p && (flags_value == ConditionFlags.POS.toU16) then vm2.add_to_pc offs else vm2
      ExecResult.ok vm3
  | Opcode.ADD dr sr1 mode sr2 =>
    match vm.get_register_value sr1 with
    | Except.error _ => ExecResult.vmError (VMError.Execute ("ADD"))
    | Except.ok source_register_1 =>
      match (if mode then Except.ok (sign_extend_5_bits sr2) else vm.get_register_value sr2) with
      | Except.error _ => ExecResult.vmError (VMError.Execute ("ADD"))
      | Except.ok rhs =>
        match vm.update_register dr (wrapping_add source_register_1 rhs) with
        | Except.error _ => ExecResult.vmError (VMError.Execute ("ADD"))
        | Except.ok vm1 =>
          match vm1.update_flags dr with
          | Except.error _ => ExecResult.vmError (VMError.Execute ("ADD"))
          | Except.ok vm2 => ExecResult.ok vm2
  | Opcode.LD dr offset =>
    match vm.get_pc with
    | Except.error _ => ExecResult.vmError (VMError.Execute ("LD:"))
    | Except.ok pc_value =>
      match vm.read_word (wrapping_add pc_value (sign_extend_9_bits offset)) with
      | Except.error _ => ExecResult.vmError (VMError.Execute ("LD:"))
      | Except.ok none => ExecResult.vmError (VMError.Execute ("LD: read_word"))
      | Except.ok (some word) =>
        match vm.update_register dr word with
        | Except.error _ => ExecResult.vmError (VMError.Execute ("LD:"))
        | Except.ok vm1 =>
          match vm1.update_flags dr with
          | Except.error _ => ExecResult.vmError (VMError.Execute ("LD:"))
          | Except.ok vm2 => ExecResult.ok vm2
  | Opcode.ST sr offset =>
    match vm.get_register_value sr with
    | Except.error _ => ExecResult.vmError (VMError.Execute ("ST:"))
    | Except.ok word =>
      match vm.get_pc with
      | Except.error _ => ExecResult.vmError (VMError.Execute ("ST:"))
      | Except.ok pc_value =>
        match vm.store_word (wrapping_add pc_value (sign_extend_9_bits offset)) word with
        | Except.error _ => ExecResult.vmError (VMError.Execute ("ST:"))
        | Except.ok vm1 => ExecResult.ok vm1
  | Opcode.JSR mode offset =>
    match vm.get_pc with
    | Except.error _ => ExecResult.vmError (VMError.Execute ("JSR:"))
    | Except.ok pc_value =>
      match vm.update_register 7 pc_value with
      | Except.error _ => ExecResult.vmError (VMError.Execute ("JSR:"))
      | Except.ok vm1 =>
        match (if mode then Except.ok (wrapping_add pc_value (sign_extend_11_bits offset))
            else vm1.get_register_value (offset >>> 6)) with
        | Except.error _ => ExecResult.vmError (VMError.Execute ("JSR:"))
        | Except.ok new_pc_value =>
          match vm1.set_pc new_pc_value with
          | Except.error _ => ExecResult.vmError (VMError.Execute ("JSR:"))
          | Except.ok vm2 => ExecResult.ok vm2
  | Opcode.AND dr sr1 mode sr2 =>
    match vm.get_register_value sr1 with
    | Except.error _ => ExecResult.vmError (VMError.Execute ("AND"))
    | Except.ok source_register_1 =>
      match (if mode then Except.ok (sign_extend_5_bits sr2) else vm.get_register_value sr2) with
      | Except.error _ => ExecResult.vmError (VMError.Execute ("AND"))
      | Except.ok rhs =>
        match vm.update_register dr (source_register_1 &&& rhs) with
        | Except.error _ => ExecResult.vmError (VMError.Execute ("AND"))
        | Except.ok vm1 =>
          match vm1.update_flags dr with
          | Except.error _ => ExecResult.vmError (VMError.Execute ("AND"))
          | Except.ok vm2 => ExecResult.ok vm2
  | Opcode.LDR dr base_r offset =>
    match vm.get_register base_r with
    | Except.error _ => ExecResult.vmError (VMError.Execute ("LDR:"))
    | Except.ok base_register_value =>
      match vm.read_word (wrapping_add base_register_value (sign_extend_6_bits offset)) with
      | Except.error _ => ExecResult.vmError (VMError.Execute ("LDR:"))
      | Except.ok none => ExecResult.vmError (VMError.Execute ("LDR: read_word"))
      | Except.ok (some word) =>
        match vm.update_register dr word with
        | Except.error _ => ExecResult.vmError (VMError.Execute ("LDR:"))
        | Except.ok vm1 =>
          match vm1.update_flags dr with
          | Except.error _ => ExecResult.vmError (VMError.Execute ("LDR:"))
          | Except.ok vm2 => ExecResult.ok vm2
  | Opcode.STR sr base_r offset =>
    match vm.get_register base_r with
    | Except.error _ => ExecResult.vmError (VMError.Execute ("STR:"))
    | Except.ok base_register_value =>
      match vm.get_register_value sr with
      | Except.error _ => ExecResult.vmError (VMError.Execute ("STR:"))
      | Except.ok word =>
        match vm.store_word (wrapping_add base_register_value (sign_extend_6_bits offset)) word with
        | Except.error _ => ExecResult.vmError (VMError.Execute ("STR:"))
        | Except.ok vm1 => ExecResult.ok vm1
  | Opcode.RTI => ExecResult.ok vm
  | Opcode.NOT dr sr =>
    match vm.get_register_value sr with
    | Except.error _ => ExecResult.vmError (VMError.Execute ("NOT:"))
    | Except.ok source_register =>
      match vm.update_register dr (source_register ^^^ 0xFFFF) with
      | Except.error _ => ExecResult.vmError (VMError.Execute ("NOT:"))
      | Except.ok vm1 =>
        match vm1.update_flags dr with
        | Except.error _ => ExecResult.vmError (VMError.Execute ("NOT:"))
        | Except.ok vm2 => ExecResult.ok vm2
  | Opcode.LDI dr offset =>
    match vm.get_pc with
    | Except.error _ => ExecResult.vmError (VMError.Execute ("LDI:"))
    | Except.ok pc_value =>
      match vm.read_word (wrapping_add pc_value (sign_extend_9_bits offset)) with
      | Except.error _ => ExecResult.vmError (VMError.Execute ("LDI:"))
      | Except.ok none => ExecResult.vmError (VMError.Execute ("LDI: couldn't read first_address"))
      | Except.ok (some address) =>
        match vm.read_word address with
        | Except.error _ => ExecResult.vmError (VMError.Execute ("LDI:"))
        | Except.ok none => ExecResult.vmError (VMError.Execute ("LDI: read_word"))
        | Except.ok (some word) =>
          match vm.update_register dr word with
          | Except.error _ => ExecResult.vmError (VMError.Execute ("LDI:"))
          | Except.ok vm1 =>
            match vm1.update_flags dr with
            | Except.error _ => ExecResult.vmError (VMError.Execute ("LDI:"))
            | Except.ok vm2 => ExecResult.ok vm2
  | Opcode.STI sr offset =>
    match vm.get_pc with
    | Except.error _ => ExecResult.vmError (VMError.Execute ("STI:"))
    | Except.ok pc_value =>
      match vm.read_word (wrapping_add pc_value (sign_extend_9_bits offset)) with
      | Except.error _ => ExecResult.vmError (VMError.Execute ("STI:"))
      | Except.ok none => ExecResult.vmError (VMError.Execute ("STI: couldn't read first_address"))
      | Except.ok (some address) =>
        match vm.get_register_value sr with
        | Except.error _ => ExecResult.vmError (VMError.Execute ("STI:"))
        | Except.ok word =>
          match vm.store_word address word with
          | Except.error _ => ExecResult.vmError (VMError.Execute ("STI:"))
          | Except.ok vm1 => ExecResult.ok vm1
  | Opcode.JMP base_r =>
    match vm.get_register_value base_r with
    | Except.error _ => ExecResult.vmError (VMError.Execute ("JMP:"))
    | Except.ok offset =>
      match vm.set_pc offset with
      | Except.error _ => ExecResult.vmError (VMError.Execute ("JMP:"))
      | Except.ok vm1 => ExecResult.ok vm1
  | Opcode.RES => ExecResult.ok vm
  | Opcode.LEA dr offset =>
    match vm.get_pc with
    | Except.error _ => ExecResult.vmError (VMError.Execute ("LEA:"))
    | Except.ok pc_value =>
      match vm.update_register dr (wrapping_add pc_value (sign_extend_9_bits offset)) with
      | Except.error _ => ExecResult.vmError (VMError.Execute ("LEA:"))
      | Except.ok vm1 =>
        match vm1.update_flags dr with
        | Except.error _ => ExecResult.vmError (VMError.Execute ("LEA:"))
        | Except.ok vm2 => ExecResult.ok vm2
  | Opcode.TRAP _ => ExecResult.panicked ("In next PR")

/-- VM::next_instruction: fetch the word at the PC, decode it, advance
the PC by one (wrapping), then execute. -/
def VM.next_instruction (vm : VM) : ExecResult VM :=
  match vm.get_pc with
  | Except.error e => ExecResult.vmError e
  | Except.ok pc =>
    match vm.read_word pc with
    | Except.error _ => ExecResult.vmError (VMError.Fetch ("failed to read"))
    | Except.ok none => ExecResult.vmError (VMError.Fetch ("invalid Opcode"))
    | Except.ok (some instruction) =>
      match decode instruction with
      | Except.error _ => ExecResult.vmError (VMError.Decode ("Invalid opcode"))
      | Except.ok opcode => vm.increment_pc.execute opcode

/-! ### Program loader (VM::load_bytes and its helpers) -/

/-- slice::chunks_exact(2): the complete two-byte chunks in order; a
trailing odd byte is dropped. -/
def chunks_exact_2 : List Nat → List (List Nat)
  | a :: b :: rest => [a, b] :: chunks_exact_2 rest
  | _ => []

/-- VM::join_bytes: big-endian combination of a two-byte chunk. -/
def join_bytes (bytes : List Nat) : Option Nat :=
  match bytes.head?, bytes[1]? with
  | some first_byte, some second_byte => some ((first_byte <<< 8) ||| second_byte)
  | _, _ => none

/-- The loop in VM::load_bytes that joins every remaining chunk,
propagating a failure of join_bytes. -/
def join_all : List (List Nat) → Option (List Nat)
  | [] => some []
  | chunk :: rest =>
    match join_bytes chunk, join_all rest with
    | some w, some ws => some (w :: ws)
    | _, _ => none

/-- copy_from_slice onto the subrange origin..origin+len of the memory
array. -/
def write_words (memory : Nat → Nat) (origin : Nat) (words : List Nat) : Nat → Nat :=
  fun i => if origin ≤ i ∧ i < origin + words.length then words.getD (i - origin) 0 else memory i

/-- VM::load_bytes on a byte buffer.  The Rust method takes &mut self
and returns Result<(),VMError>; it is embedded as a function returning
that Result together with the machine it leaves behind.  The u16
try_into on the word count and the u16 checked_add are the two ≤ 65535
tests; the slice get_mut bounds test is kept even though the preceding
checks make it pass. -/
def VM.load_bytes (vm : VM) (bytes : List Nat) : Except VMError Unit × VM :=
  match chunks_exact_2 bytes with
  | [] => (Except.error (VMError.LoadProgram ("failed to read origin address")), vm)
  | origin_chunk :: rest =>
    match join_bytes origin_chunk with
    | none => (Except.error (VMError.LoadProgram ("failed to read origin address")), vm)
    | some origin =>
      match join_all rest with
      | none => (Except.error (VMError.LoadProgram ("failed to read ")), vm)
      | some loaded_memory =>
        if loaded_memory.length ≤ 65535 then
          if origin + loaded_memory.length ≤ 65535 then
            if origin ≤ origin + loaded_memory.length ∧
                origin + loaded_memory.length ≤ MEMORY_MAX then
              (Except.ok (),
                { vm with memory := write_words vm.memory origin loaded_memory })
            else (Except.error (VMError.LoadProgram ("failed to write into VM memory")), vm)
          else (Except.error (VMError.LoadProgram ("not enough memory to load the program")), vm)
        else (Except.error (VMError.LoadProgram ("not enough memory to load the program")), vm)

/-! ### Spec-side helpers used to state the claims -/

/-- The big-endian word held by a two-byte chunk. -/
def join2 (chunk : List Nat) : Nat := (chunk.headD 0 <<< 8) ||| chunk.getD 1 0

/-- Origin word of a program image: its first two bytes, big-endian. -/
def image_origin (bytes : List Nat) : Nat := join2 (bytes.take 2)

/-- Data words of a program image: every complete two-byte chunk after
the origin. -/
def image_words (bytes : List Nat) : List Nat :=
  ((chunks_exact_2 bytes).drop 1).map join2

/-- The destination register written by a flag-setting instruction. -/
def dest_register : Opcode → Option Nat
  | Opcode.ADD dr _ _ _ => some dr
  | Opcode.AND dr _ _ _ => some dr
  | Opcode.NOT dr _ => some dr
  | Opcode.LD dr _ => some dr
  | Opcode.LDI dr _ => some dr
  | Opcode.LDR dr _ _ => some dr
  | Opcode.LEA dr _ => some dr
  | _ => none

/-- A machine holding a single LD instruction (dr = 0, offset = 1) at
the initial PC, used to exercise the step function. -/
def ld_demo_vm : VM :=
  { VM.default with memory := fun i => if i = 0x3000 then 0x2001 else 0 }

/-- The machine produced by executing ADD r0, r0, imm 5 on the default
machine. -/
def add_demo_result : VM := { VM.default with r0 := 5, cond := 0 }

/-! ### Helper lemmas -/

lemma and_shiftRight (x y n : Nat) : (x &&& y) >>> n = (x >>> n) &&& (y >>> n) := by
  apply Nat.eq_of_testBit_eq
  intro i
  simp [Nat.testBit_shiftRight, Nat.testBit_and]

lemma mask_0E00 (w : Nat) : (w &&& 0x0E00) >>> 9 = (w >>> 9) &&& 7 := by
  rw [and_shiftRight]
  rfl

lemma mask_01C0 (w : Nat) : (w &&& 0x01C0) >>> 6 = (w >>> 6) &&& 7 := by
  rw [and_shiftRight]
  rfl

lemma mask_0020 (w : Nat) : (w &&& 0x0020) >>> 5 = (w >>> 5) &&& 1 := by
  rw [and_shiftRight]
  rfl

lemma mask_0800 (w : Nat) : (w &&& 0x0800) >>> 11 = (w >>> 11) &&& 1 := by
  rw [and_shiftRight]
  rfl

lemma mask_0400 (w : Nat) : (w &&& 0x0400) >>> 10 = (w >>> 10) &&& 1 := by
  rw [and_shiftRight]
  rfl

lemma mask_0200 (w : Nat) : (w &&& 0x0200) >>> 9 = (w >>> 9) &&& 1 := by
  rw [and_shiftRight]
  rfl

lemma and7_le (x : Nat) : x &&& 7 ≤ 255 := le_trans Nat.and_le_right (by norm_num)

lemma and31_le (x : Nat) : x &&& 31 ≤ 255 := le_trans Nat.and_le_right (by norm_num)

lemma and63_le (x : Nat) : x &&& 63 ≤ 255 := le_trans Nat.and_le_right (by norm_num)

lemma and255_le (x : Nat) : x &&& 255 ≤ 255 := Nat.and_le_right

lemma shiftRight12_lt {w : Nat} (hw : w < 65536) : w >>> 12 < 16 := by
  rw [Nat.shiftRight_eq_div_pow]
  have h : (2 : Nat) ^ 12 = 4096 := by norm_num
  rw [h]
  omega

/-- For every 16-bit word the decoder agrees with the spec-side table
transcription, in particular it never reaches an error branch. -/
lemma decode_eq_spec {w : Nat} (hw : w < 65536) : decode w = Except.ok (decodeSpec w) := by
  have h16 : w >>> 12 < 16 := shiftRight12_lt hw
  have h : w >>> 12 = 0 ∨ w >>> 12 = 1 ∨ w >>> 12 = 2 ∨ w >>> 12 = 3 ∨ w >>> 12 = 4 ∨
      w >>> 12 = 5 ∨ w >>> 12 = 6 ∨ w >>> 12 = 7 ∨ w >>> 12 = 8 ∨ w >>> 12 = 9 ∨
      w >>> 12 = 10 ∨ w >>> 12 = 11 ∨ w >>> 12 = 12 ∨ w >>> 12 = 13 ∨ w >>> 12 = 14 ∨
      w >>> 12 = 15 := by omega
  rcases h with h | h | h | h | h | h | h | h | h | h | h | h | h | h | h | h <;>
    simp [decode, decodeSpec, h, mask_0E00, mask_01C0, mask_0020, mask_0800, mask_0400,
      mask_0200, and7_le, and31_le, and63_le, and255_le]

lemma wrapping_add_lt (a b : Nat) : wrapping_add a b < MEMORY_MAX :=
  Nat.mod_lt _ (by decide)

lemma get_pc_eq (vm : VM) : vm.get_pc = Except.ok vm.pc := rfl

lemma get_flags_eq (vm : VM) : vm.get_flags = Except.ok vm.cond := rfl

lemma read_word_in_bounds (vm : VM) {a : Nat} (ha : a < MEMORY_MAX) :
    vm.read_word a = Except.ok (some (vm.memory a)) := by
  unfold VM.read_word
  rw [if_pos ha]

set_option maxHeartbeats 1000000 in
lemma get_register_value_lt {vm : VM} (hwf : vm.wf) {r v : Nat}
    (h : vm.get_register_value r = Except.ok v) : v < MEMORY_MAX := by
  obtain ⟨hm, h0, h1, h2, h3, h4, h5, h6, h7, hpc, hcond⟩ := hwf
  unfold VM.get_register_value at h
  split_ifs at h
  all_goals first
    | exact Except.noConfusion h
    | (injection h with h; subst h; assumption)

set_option maxHeartbeats 1000000 in
lemma get_register_lt {vm : VM} (hwf : vm.wf) {r v : Nat}
    (h : vm.get_register r = Except.ok v) : v < MEMORY_MAX := by
  obtain ⟨hm, h0, h1, h2, h3, h4, h5, h6, h7, hpc, hcond⟩ := hwf
  unfold VM.get_register at h
  split_ifs at h
  all_goals first
    | exact Except.noConfusion h
    | (injection h with h; subst h; assumption)

lemma get_register_value_lt8 (vm : VM) {r : Nat} (hr : r < 8) :
    ∃ v, vm.get_register_value r = Except.ok v := by
  interval_cases r <;> exact ⟨_, rfl⟩

lemma update_register_lt8 (vm : VM) {dr : Nat} (v : Nat) (hdr : dr < 8) :
    ∃ vm1, vm.update_register dr v = Except.ok vm1 ∧
      vm1.get_register dr = Except.ok v ∧
      vm1.get_register_value dr = Except.ok v ∧
      vm1.pc = vm.pc ∧ vm1.cond = vm.cond ∧ vm1.memory = vm.memory := by
  interval_cases dr <;> exact ⟨_, rfl, rfl, rfl, rfl, rfl, rfl⟩

lemma update_flags_cond (vm : VM) {dr : Nat} (v : Nat)
    (hget : vm.get_register dr = Except.ok v) :
    vm.update_flags dr = Except.ok { vm with cond := new_flag_value v } := by
  unfold VM.update_flags
  rw [hget]
  rfl

lemma grv_cond_set (vm : VM) (x : Nat) {dr : Nat} (hdr : dr < 8) :
    ({ vm with cond := x } : VM).get_register_value dr = vm.get_register_value dr := by
  interval_cases dr <;> rfl

/-- Writing a general register and then recomputing the flags, the tail
shared by every flag-setting execute arm. -/
lemma write_then_flags (vm : VM) {dr : Nat} (v : Nat) (hdr : dr < 8) :
    ∃ vm1 vm2, vm.update_register dr v = Except.ok vm1 ∧
      vm1.update_flags dr = Except.ok vm2 ∧
      vm2.get_register_value dr = Except.ok v ∧
      vm2.cond = new_flag_value v ∧
      vm2.pc = vm.pc ∧ vm2.memory = vm.memory := by
  obtain ⟨vm1, h1, hg, hgv, hpc, hcond, hmem⟩ := update_register_lt8 vm v hdr
  refine ⟨vm1, _, h1, update_flags_cond vm1 v hg, ?_, rfl, ?_, ?_⟩
  · rw [grv_cond_set _ _ hdr]
    exact hgv
  · exact hpc
  · exact hmem

lemma testBit15_iff {v : Nat} (hv : v < MEMORY_MAX) : v.testBit 15 = true ↔ v >>> 15 = 1 := by
  have hd : v >>> 15 = v / 32768 := by
    rw [Nat.shiftRight_eq_div_pow]
  have hlt : v >>> 15 < 2 := by
    rw [hd]
    have : v < 65536 := hv
    omega
  rw [Nat.testBit_to_div_mod]
  have h15 : (2 : Nat) ^ 15 = 32768 := by norm_num
  rw [h15, ← hd]
  have h : v >>> 15 = 0 ∨ v >>> 15 = 1 := by omega
  rcases h with h | h <;> simp [h]

lemma flag_value_cases {v : Nat} (hv : v < MEMORY_MAX) :
    (v = 0 ∧ new_flag_value v = ConditionFlags.ZRO.toU16) ∨
    (v ≠ 0 ∧ v.testBit 15 = true ∧ new_flag_value v = ConditionFlags.NEG.toU16) ∨
    (v ≠ 0 ∧ v.testBit 15 = false ∧ new_flag_value v = ConditionFlags.POS.toU16) := by
  unfold new_flag_value
  by_cases h0 : v = 0
  · left
    exact ⟨h0, by rw [if_pos h0]⟩
  · by_cases h15 : v >>> 15 = 1
    · right; left
      exact ⟨h0, (testBit15_iff hv).mpr h15, by rw [if_neg h0, if_pos h15]⟩
    · right; right
      refine ⟨h0, ?_, by rw [if_neg h0, if_neg h15]⟩
      rw [Bool.eq_false_iff]
      intro hb
      exact h15 ((testBit15_iff hv).mp hb)

lemma default_wf : VM.default.wf := by
  refine ⟨fun i => ?_, ?_, ?_, ?_, ?_, ?_, ?_, ?_, ?_, ?_, ?_⟩
  · show (0 : Nat) < MEMORY_MAX
    decide
  all_goals decide

/-! ### Loader lemmas -/

lemma chunks_exact_2_length : ∀ l : List Nat, (chunks_exact_2 l).length = l.length / 2
  | [] => rfl
  | [_] => by
    show (0 : Nat) = 1 / 2
    decide
  | _ :: _ :: rest => by
    have ih := chunks_exact_2_length rest
    simp only [chunks_exact_2, List.length_cons, ih]
    omega

lemma join_all_chunks : ∀ l : List Nat,
    join_all (chunks_exact_2 l) = some ((chunks_exact_2 l).map join2)
  | [] => rfl
  | [_] => rfl
  | a :: b :: rest => by
    show join_all ([a, b] :: chunks_exact_2 rest) = _
    rw [join_all, join_all_chunks rest]
    rfl

/-- Evaluation of VM::load_bytes on a buffer that contains an origin
word: the unreachable slice bounds test is eliminated. -/
lemma load_bytes_cons (vm : VM) (a b : Nat) (rest : List Nat) :
    vm.load_bytes (a :: b :: rest) =
      (if ((chunks_exact_2 rest).map join2).length ≤ 65535 then
        if ((a <<< 8) ||| b) + ((chunks_exact_2 rest).map join2).length ≤ 65535 then
          (Except.ok (),
            { vm with
              memory :=
                (write_words vm.memory ((a <<< 8) ||| b) ((chunks_exact_2 rest).map join2)) })
        else (Except.error (VMError.LoadProgram ("not enough memory to load the program")), vm)
      else (Except.error (VMError.LoadProgram ("not enough memory to load the program")), vm)) := by
  have hchunks : chunks_exact_2 (a :: b :: rest) = [a, b] :: chunks_exact_2 rest := rfl
  have hjb : join_bytes [a, b] = some ((a <<< 8) ||| b) := rfl
  simp only [VM.load_bytes, hchunks, hjb, join_all_chunks rest]
  split_ifs with h1 h2 h3
  · rfl
  · exact absurd ⟨Nat.le_add_right _ _, le_trans h2 (by decide)⟩ h3
  · rfl
  · rfl

/-! ### Claim theorems -/

/-- C1 (code bug): the TRAP execute arm is an unimplemented todo! and
panics for every trap vector, so no TRAP instruction dispatches to its
service routine and the HALT vector 0x25 never clears the running flag,
even though decoding yields TRAP 0x25 and the dispatch table of traps.rs
maps vector 0x25 to HALT. -/
theorem trap_unimplemented_panics :
    decode 0xF025 = Except.ok (Opcode.TRAP 0x25) ∧
    Trap.try_from 0x25 = Except.ok Trap.Halt ∧
    VM.default.execute (Opcode.TRAP 0x25) = ExecResult.panicked ("In next PR") ∧
    (∀ (vm : VM) (trap_vec : Nat),
      vm.execute (Opcode.TRAP trap_vec) = ExecResult.panicked ("In next PR")) :=
  ⟨rfl, rfl, rfl, fun _ _ => rfl⟩

/-- C2 counterexample: the claim says a buffer with an odd trailing byte
must fail to load, but chunks_exact silently drops the trailing byte:
the three-byte buffer 0x30 0x00 0xAB has odd length yet loads
successfully. -/
theorem load_odd_trailing_byte_accepted :
    ([0x30, 0x00, 0xAB] : List Nat).length % 2 = 1 ∧
      (VM.default.load_bytes ([0x30, 0x00, 0xAB])).1.isOk = true := ⟨rfl, rfl⟩

/-- C2 (amended): loading fails iff the buffer holds no complete origin
word (fewer than two bytes), or the image word count exceeds 65535, or
origin + word_count exceeds 65535 (the 16-bit checked_add of the end
position overflows); a trailing odd byte is ignored, not an error.
Otherwise loading succeeds. -/
theorem load_failure_iff (vm : VM) (bytes : List Nat) (hb : ∀ x ∈ bytes, x < 256) :
    (vm.load_bytes bytes).1.isOk = true ↔
      2 ≤ bytes.length ∧ (image_words bytes).length ≤ 65535 ∧
        image_origin bytes + (image_words bytes).length ≤ 65535 := by
  match bytes with
  | [] =>
    constructor
    · intro hx
      exact Bool.noConfusion hx
    · intro hx
      exact absurd hx.1 (by decide)
  | [a] =>
    constructor
    · intro hx
      exact Bool.noConfusion hx
    · intro hx
      exact absurd hx.1 (by simp)
  | a :: b :: rest =>
    have himg : image_words (a :: b :: rest) = (chunks_exact_2 rest).map join2 := rfl
    have hio : image_origin (a :: b :: rest) = (a <<< 8) ||| b := rfl
    rw [load_bytes_cons, himg, hio]
    split_ifs with h1 h2
    · constructor
      · intro _
        refine ⟨?_, h1, h2⟩
        simp only [List.length_cons]
        omega
      · intro _
        rfl
    · constructor
      · intro hx
        exact Bool.noConfusion hx
      · intro hx
        exact absurd hx.2.2 h2
    · constructor
      · intro hx
        exact Bool.noConfusion hx
      · intro hx
        exact absurd hx.2.1 h1

/-- C3 (code bug): the word 0x4600 decodes successfully to JSR with
mode = 0, but executing it presents the unmasked index
0x600 >> 6 = 24 to the register accessor, which fails with the
register-addressing error ReadRegister 24; the execute step fails even
though the instruction was produced by a successful decode. -/
theorem decoded_jsr_register_addressing_error :
    decode 0x4600 = Except.ok (Opcode.JSR false 0x600) ∧
    (0x600 : Nat) >>> 6 = 24 ∧
    VM.default.get_register_value 24 = Except.error (VMError.ReadRegister 24) ∧
    VM.default.execute (Opcode.JSR false 0x600) = ExecResult.vmError (VMError.Execute ("JSR:")) :=
  ⟨rfl, rfl, rfl, rfl⟩

/-- C4: loading is all-or-nothing — when load_bytes fails the machine
(and in particular its memory) is returned unmodified, and when it
succeeds the whole image is written in one copy starting at the origin
word of the buffer. -/
theorem load_all_or_nothing (vm : VM) (bytes : List Nat) :
    ((vm.load_bytes bytes).1.isOk = false → (vm.load_bytes bytes).2 = vm) ∧
    ((vm.load_bytes bytes).1.isOk = true →
      (vm.load_bytes bytes).2.memory =
        write_words vm.memory (image_origin bytes) (image_words bytes)) := by
  match bytes with
  | [] => exact ⟨fun _ => rfl, fun hx => Bool.noConfusion hx⟩
  | [a] => exact ⟨fun _ => rfl, fun hx => Bool.noConfusion hx⟩
  | a :: b :: rest =>
    rw [load_bytes_cons]
    split_ifs with h1 h2
    · exact ⟨fun hx => Bool.noConfusion hx, fun _ => rfl⟩
    · exact ⟨fun _ => rfl, fun hx => Bool.noConfusion hx⟩
    · exact ⟨fun _ => rfl, fun hx => Bool.noConfusion hx⟩

/-- Witness for C4 at a one-byte buffer: the failed load leaves the
default machine untouched. -/
theorem load_all_or_nothing_witness :
    (VM.default.load_bytes ([0x12])).2 = VM.default :=
  (load_all_or_nothing VM.default ([0x12])).1 rfl

/-- Witness for C2 at a well-formed four-byte image. -/
theorem load_failure_iff_witness :
    (VM.default.load_bytes ([0x30, 0x00, 0x00, 0x07])).1.isOk = true :=
  (load_failure_iff VM.default ([0x30, 0x00, 0x00, 0x07]) (by decide)).mpr (by decide)

/-- C6 counterexample: for a JSR word with mode = 0 the claim says the
decoder extracts the base-register field (bits 8-6), but the decoded
instruction carries the full 11-bit field: 0x4040 has base-register
field 1 yet decodes to JSR with field 64. -/
theorem decode_jsr_mode0_not_base_field :
    decode 0x4040 = Except.ok (Opcode.JSR false 64) ∧
      (0x4040 : Nat) >>> 6 &&& 7 = 1 ∧ (64 : Nat) ≠ 1 :=
  ⟨rfl, rfl, by decide⟩

/-- C6 (amended): for every 16-bit word the decoder selects on the top
four bits and extracts the fields of the instruction-format table from
their fixed bit positions, except that the JSR variant stores the mode
bit together with the full low 11-bit field in both modes (the base
register is only taken from that field at execution time); in
particular the two ADD example words decode to the expected fields. -/
theorem decode_matches_format_table :
    (∀ w, w < 65536 → decode w = Except.ok (decodeSpec w)) ∧
    decode 0x1283 = Except.ok (Opcode.ADD 1 2 false 3) ∧
    decode 0x12AB = Except.ok (Opcode.ADD 1 2 true 11) :=
  ⟨fun _ hw => decode_eq_spec hw, rfl, rfl⟩

/-- Witness for C6 at the first ADD example word. -/
theorem decode_matches_format_table_witness :
    decode 0x1283 = Except.ok (decodeSpec 0x1283) :=
  decode_matches_format_table.1 0x1283 (by decide)

/-- C8: each sign-extension function returns an input that fits its
width unchanged when the sign bit (bit W-1) is clear, and returns the
input with all bits above the sign bit set when it is set; in
particular at width 5, 0b11111 extends to 0xFFFF and 0b00001 stays
0x0001. -/
lemma or_high_mask_eq_add {n i : Nat} (m : Nat) (hn : n < 2 ^ i) :
    n ||| 2 ^ i * m = n + 2 ^ i * m := by
  have h := Nat.mul_add_lt_is_or hn m
  rw [Nat.or_comm, ← h]
  omega

lemma se5_spec : ∀ n, n < 32 → sign_extend_5_bits n = if n < 16 then n else n + 65504 := by
  intro n hn
  unfold sign_extend_5_bits
  have hd : n >>> 4 = n / 16 := by
    rw [Nat.shiftRight_eq_div_pow]
  by_cases h : n < 16
  · rw [if_neg (by rw [hd]; omega), if_pos h]
  · rw [if_pos (by rw [hd]; omega), if_neg h]
    have hm : (65504 : Nat) = 2 ^ 5 * 2047 := by norm_num
    rw [hm]
    exact or_high_mask_eq_add 2047 (by simpa using hn)

lemma se6_spec : ∀ n, n < 64 → sign_extend_6_bits n = if n < 32 then n else n + 65472 := by
  intro n hn
  unfold sign_extend_6_bits
  have hd : n >>> 5 = n / 32 := by
    rw [Nat.shiftRight_eq_div_pow]
  by_cases h : n < 32
  · rw [if_neg (by rw [hd]; omega), if_pos h]
  · rw [if_pos (by rw [hd]; omega), if_neg h]
    have hm : (65472 : Nat) = 2 ^ 6 * 1023 := by norm_num
    rw [hm]
    exact or_high_mask_eq_add 1023 (by simpa using hn)

lemma se9_spec : ∀ n, n < 512 → sign_extend_9_bits n = if n < 256 then n else n + 65024 := by
  intro n hn
  unfold sign_extend_9_bits
  have hd : n >>> 8 = n / 256 := by
    rw [Nat.shiftRight_eq_div_pow]
  by_cases h : n < 256
  · rw [if_neg (by rw [hd]; omega), if_pos h]
  · rw [if_pos (by rw [hd]; omega), if_neg h]
    have hm : (65024 : Nat) = 2 ^ 9 * 127 := by norm_num
    rw [hm]
    exact or_high_mask_eq_add 127 (by simpa using hn)

lemma se11_spec : ∀ n, n < 2048 → sign_extend_11_bits n = if n < 1024 then n else n + 63488 := by
  intro n hn
  unfold sign_extend_11_bits
  have hd : n >>> 10 = n / 1024 := by
    rw [Nat.shiftRight_eq_div_pow]
  by_cases h : n < 1024
  · rw [if_neg (by rw [hd]; omega), if_pos h]
  · rw [if_pos (by rw [hd]; omega), if_neg h]
    have hm : (63488 : Nat) = 2 ^ 11 * 31 := by norm_num
    rw [hm]
    exact or_high_mask_eq_add 31 (by simpa using hn)

theorem sign_extend_correct :
    (∀ n, n < 32 → sign_extend_5_bits n = if n < 16 then n else n + 65504) ∧
    (∀ n, n < 64 → sign_extend_6_bits n = if n < 32 then n else n + 65472) ∧
    (∀ n, n < 512 → sign_extend_9_bits n = if n < 256 then n else n + 65024) ∧
    (∀ n, n < 2048 → sign_extend_11_bits n = if n < 1024 then n else n + 63488) ∧
    sign_extend_5_bits 0x1F = 0xFFFF ∧ sign_extend_5_bits 1 = 1 :=
  ⟨se5_spec, se6_spec, se9_spec, se11_spec, rfl, rfl⟩

/-- Witness for C8 at the all-ones 5-bit input. -/
theorem sign_extend_correct_witness :
    sign_extend_5_bits 31 = if (31 : Nat) < 16 then 31 else 31 + 65504 :=
  sign_extend_correct.1 31 (by decide)

/-- C10: decoding is total — on every 16-bit word Opcode::try_from
returns a decoded instruction and never an InvalidOpcode error. -/
theorem decode_total (w : Nat) (hw : w < 65536) : (decode w).isOk = true := by
  rw [decode_eq_spec hw]
  rfl

/-- Witness for C10 at a concrete word. -/
theorem decode_total_witness : (decode 0x1283).isOk = true :=
  decode_total 0x1283 (by decide)

/-- C5: in every fetch-decode-execute step the PC is advanced by one
(wrapping) before the fetched instruction executes: whenever the word
at the PC decodes, the step equals executing the decoded instruction on
the PC-incremented machine; in particular an LD fetched at address pc
loads memory[(pc + 1) + sign_extend_9(offset)] (wrapping) into its
destination register and leaves the PC at pc + 1. -/
theorem pc_incremented_before_execute :
    (∀ (vm : VM) (op : Opcode), vm.pc < MEMORY_MAX →
      decode (vm.memory vm.pc) = Except.ok op →
      vm.next_instruction = vm.increment_pc.execute op) ∧
    (∀ (vm : VM) (dr offset : Nat), vm.pc < MEMORY_MAX → dr < 8 →
      decode (vm.memory vm.pc) = Except.ok (Opcode.LD dr offset) →
      ∃ vmf, vm.next_instruction = ExecResult.ok vmf ∧
        vmf.get_register_value dr = Except.ok
          (vm.memory (wrapping_add (wrapping_add vm.pc 1) (sign_extend_9_bits offset))) ∧
        vmf.pc = wrapping_add vm.pc 1) := by
  have hseq : ∀ (vm : VM) (op : Opcode), vm.pc < MEMORY_MAX →
      decode (vm.memory vm.pc) = Except.ok op →
      vm.next_instruction = vm.increment_pc.execute op := by
    intro vm op hpc hdec
    simp only [VM.next_instruction, get_pc_eq, read_word_in_bounds vm hpc, hdec]
  refine ⟨hseq, ?_⟩
  intro vm dr offset hpc hdr hdec
  rw [hseq vm _ hpc hdec]
  obtain ⟨vm1, vm2, hu, hf, hgv, hcond, hpcf, hmem⟩ :=
    write_then_flags vm.increment_pc
      (vm.increment_pc.memory (wrapping_add vm.increment_pc.pc (sign_extend_9_bits offset))) hdr
  refine ⟨vm2, ?_, hgv, hpcf⟩
  simp only [VM.execute, get_pc_eq,
    read_word_in_bounds vm.increment_pc
      (wrapping_add_lt vm.increment_pc.pc (sign_extend_9_bits offset))]
  rw [hu]
  dsimp only
  rw [hf]

/-- Witness for C5 on a machine holding LD r0, offset 1 at the initial
PC. -/
theorem pc_incremented_before_execute_witness :
    ∃ vmf, ld_demo_vm.next_instruction = ExecResult.ok vmf ∧
      vmf.get_register_value 0 = Except.ok
        (ld_demo_vm.memory
          (wrapping_add (wrapping_add ld_demo_vm.pc 1) (sign_extend_9_bits 1))) ∧
      vmf.pc = wrapping_add ld_demo_vm.pc 1 :=
  pc_incremented_before_execute.2 ld_demo_vm 0 1 (by decide) (by decide) rfl

/-- C7: after every successfully executed flag-setting instruction
(ADD, AND, NOT, LD, LDI, LDR, LEA, whose destination field is a 3-bit
register index), COND equals exactly one of the three mutually
exclusive flag values: NEG if bit 15 of the just-written destination
value is set, ZRO if that value is zero, and POS otherwise. -/
theorem execute_flag_invariant (vm : VM) (op : Opcode) (dr : Nat) (vmf : VM)
    (hwf : vm.wf) (hdest : dest_register op = some dr) (hdr : dr < 8)
    (hexec : vm.execute op = ExecResult.ok vmf) :
    ∃ v, vmf.get_register_value dr = Except.ok v ∧ vmf.cond = new_flag_value v ∧
      ((v = 0 ∧ vmf.cond = ConditionFlags.ZRO.toU16) ∨
       (v ≠ 0 ∧ v.testBit 15 = true ∧ vmf.cond = ConditionFlags.NEG.toU16) ∨
       (v ≠ 0 ∧ v.testBit 15 = false ∧ vmf.cond = ConditionFlags.POS.toU16)) := by
  cases op with
  | BR n z p offset => simp [dest_register] at hdest
  | ST sr offset => simp [dest_register] at hdest
  | JSR mode offset => simp [dest_register] at hdest
  | STR sr base_r offset => simp [dest_register] at hdest
  | RTI => simp [dest_register] at hdest
  | STI sr offset => simp [dest_register] at hdest
  | JMP base_r => simp [dest_register] at hdest
  | RES => simp [dest_register] at hdest
  | TRAP trap_vec => simp [dest_register] at hdest
  | ADD dr0 sr1 mode sr2 =>
    obtain rfl : dr0 = dr := by simpa [dest_register] using hdest
    simp only [VM.execute] at hexec
    cases h1 : vm.get_register_value sr1 with
    | error e =>
      rw [h1] at hexec
      simp at hexec
    | ok a =>
      rw [h1] at hexec
      dsimp only at hexec
      cases h2 : (if mode = true then Except.ok (sign_extend_5_bits sr2)
          else vm.get_register_value sr2) with
      | error e2 =>
        rw [h2] at hexec
        simp at hexec
      | ok rhs =>
        rw [h2] at hexec
        dsimp only at hexec
        obtain ⟨vm1, vm2, hu, hf, hgv, hcond, hpcf, hmem⟩ :=
          write_then_flags vm (wrapping_add a rhs) hdr
        rw [hu] at hexec
        dsimp only at hexec
        rw [hf] at hexec
        dsimp only at hexec
        simp only [ExecResult.ok.injEq] at hexec
        subst hexec
        refine ⟨wrapping_add a rhs, hgv, hcond, ?_⟩
        rw [hcond]
        exact flag_value_cases (wrapping_add_lt a rhs)
  | AND dr0 sr1 mode sr2 =>
    obtain rfl : dr0 = dr := by simpa [dest_register] using hdest
    simp only [VM.execute] at hexec
    cases h1 : vm.get_register_value sr1 with
    | error e =>
      rw [h1] at hexec
      simp at hexec
    | ok a =>
      rw [h1] at hexec
      dsimp only at hexec
      cases h2 : (if mode = true then Except.ok (sign_extend_5_bits sr2)
          else vm.get_register_value sr2) with
      | error e2 =>
        rw [h2] at hexec
        simp at hexec
      | ok rhs =>
        rw [h2] at hexec
        dsimp only at hexec
        have ha : a < MEMORY_MAX := get_register_value_lt hwf h1
        have hres : a &&& rhs < MEMORY_MAX := lt_of_le_of_lt Nat.and_le_left ha
        obtain ⟨vm1, vm2, hu, hf, hgv, hcond, hpcf, hmem⟩ :=
          write_then_flags vm (a &&& rhs) hdr
        rw [hu] at hexec
        dsimp only at hexec
        rw [hf] at hexec
        dsimp only at hexec
        simp only [ExecResult.ok.injEq] at hexec
        subst hexec
        refine ⟨a &&& rhs, hgv, hcond, ?_⟩
        rw [hcond]
        exact flag_value_cases hres
  | NOT dr0 sr =>
    obtain rfl : dr0 = dr := by simpa [dest_register] using hdest
    simp only [VM.execute] at hexec
    cases h1 : vm.get_register_value sr with
    | error e =>
      rw [h1] at hexec
      simp at hexec
    | ok a =>
      rw [h1] at hexec
      dsimp only at hexec
      have ha : a < MEMORY_MAX := get_register_value_lt hwf h1
      have hres : a ^^^ 65535 < MEMORY_MAX := by
        have hpow : (2 : Nat) ^ 16 = MEMORY_MAX := by norm_num [MEMORY_MAX]
        rw [← hpow] at ha
        rw [← hpow]
        exact Nat.xor_lt_two_pow ha (by norm_num)
      obtain ⟨vm1, vm2, hu, hf, hgv, hcond, hpcf, hmem⟩ :=
        write_then_flags vm (a ^^^ 65535) hdr
      rw [hu] at hexec
      dsimp only at hexec
      rw [hf] at hexec
      dsimp only at hexec
      simp only [ExecResult.ok.injEq] at hexec
      subst hexec
      refine ⟨a ^^^ 65535, hgv, hcond, ?_⟩
      rw [hcond]
      exact flag_value_cases hres
  | LD dr0 offset =>
    obtain rfl : dr0 = dr := by simpa [dest_register] using hdest
    simp only [VM.execute, get_pc_eq,
      read_word_in_bounds vm (wrapping_add_lt vm.pc (sign_extend_9_bits offset))] at hexec
    obtain ⟨vm1, vm2, hu, hf, hgv, hcond, hpcf, hmem⟩ :=
      write_then_flags vm (vm.memory (wrapping_add vm.pc (sign_extend_9_bits offset))) hdr
    rw [hu] at hexec
    dsimp only at hexec
    rw [hf] at hexec
    dsimp only at hexec
    simp only [ExecResult.ok.injEq] at hexec
    subst hexec
    refine ⟨_, hgv, hcond, ?_⟩
    rw [hcond]
    exact flag_value_cases (hwf.1 _)
  | LDI dr0 offset =>
    obtain rfl : dr0 = dr := by simpa [dest_register] using hdest
    simp only [VM.execute, get_pc_eq,
      read_word_in_bounds vm (wrapping_add_lt vm.pc (sign_extend_9_bits offset)),
      read_word_in_bounds vm
        (hwf.1 (wrapping_add vm.pc (sign_extend_9_bits offset)))] at hexec
    obtain ⟨vm1, vm2, hu, hf, hgv, hcond, hpcf, hmem⟩ :=
      write_then_flags vm
        (vm.memory (vm.memory (wrapping_add vm.pc (sign_extend_9_bits offset)))) hdr
    rw [hu] at hexec
    dsimp only at hexec
    rw [hf] at hexec
    dsimp only at hexec
    simp only [ExecResult.ok.injEq] at hexec
    subst hexec
    refine ⟨_, hgv, hcond, ?_⟩
    rw [hcond]
    exact flag_value_cases (hwf.1 _)
  | LDR dr0 base_r offset =>
    obtain rfl : dr0 = dr := by simpa [dest_register] using hdest
    simp only [VM.execute] at hexec
    cases hb : vm.get_register base_r with
    | error e =>
      rw [hb] at hexec
      simp at hexec
    | ok base =>
      rw [hb] at hexec
      dsimp only at hexec
      rw [read_word_in_bounds vm (wrapping_add_lt base (sign_extend_6_bits offset))] at hexec
      dsimp only at hexec
      obtain ⟨vm1, vm2, hu, hf, hgv, hcond, hpcf, hmem⟩ :=
        write_then_flags vm (vm.memory (wrapping_add base (sign_extend_6_bits offset))) hdr
      rw [hu] at hexec
      dsimp only at hexec
      rw [hf] at hexec
      dsimp only at hexec
      simp only [ExecResult.ok.injEq] at hexec
      subst hexec
      refine ⟨_, hgv, hcond, ?_⟩
      rw [hcond]
      exact flag_value_cases (hwf.1 _)
  | LEA dr0 offset =>
    obtain rfl : dr0 = dr := by simpa [dest_register] using hdest
    simp only [VM.execute, get_pc_eq] at hexec
    obtain ⟨vm1, vm2, hu, hf, hgv, hcond, hpcf, hmem⟩ :=
      write_then_flags vm (wrapping_add vm.pc (sign_extend_9_bits offset)) hdr
    rw [hu] at hexec
    dsimp only at hexec
    rw [hf] at hexec
    dsimp only at hexec
    simp only [ExecResult.ok.injEq] at hexec
    subst hexec
    refine ⟨_, hgv, hcond, ?_⟩
    rw [hcond]
    exact flag_value_cases (wrapping_add_lt vm.pc (sign_extend_9_bits offset))

/-- Witness for C7: ADD r0, r0, imm 5 on the default machine writes 5
and sets the POS flag. -/
theorem execute_flag_invariant_witness :
    ∃ v, add_demo_result.get_register_value 0 = Except.ok v ∧
      add_demo_result.cond = new_flag_value v ∧
      ((v = 0 ∧ add_demo_result.cond = ConditionFlags.ZRO.toU16) ∨
       (v ≠ 0 ∧ v.testBit 15 = true ∧ add_demo_result.cond = ConditionFlags.NEG.toU16) ∨
       (v ≠ 0 ∧ v.testBit 15 = false ∧ add_demo_result.cond = ConditionFlags.POS.toU16)) :=
  execute_flag_invariant VM.default (Opcode.ADD 0 0 true 5) 0 add_demo_result
    default_wf rfl (by decide) rfl

/-- C9: ADD performs wrapping modulo 2^16 addition and never faults on
overflow: in register mode with in-range register indices the step
succeeds and writes the wrapped sum while updating the flags from it,
and in the concrete state R0 = 0xFFFF, R1 = 1 executing ADD R1,R1,R0
yields R1 = 0 with COND = ZRO. -/
theorem add_wrapping :
    (∀ (vm : VM) (dr sr1 sr2 : Nat), dr < 8 → sr1 < 8 → sr2 < 8 →
      ∃ v1 v2 vmf, vm.get_register_value sr1 = Except.ok v1 ∧
        vm.get_register_value sr2 = Except.ok v2 ∧
        vm.execute (Opcode.ADD dr sr1 false sr2) = ExecResult.ok vmf ∧
        vmf.get_register_value dr = Except.ok ((v1 + v2) % MEMORY_MAX) ∧
        vmf.cond = new_flag_value ((v1 + v2) % MEMORY_MAX)) ∧
    (∃ vmf, ({ VM.default with r0 := 0xFFFF, r1 := 1 } : VM).execute
        (Opcode.ADD 1 1 false 0) = ExecResult.ok vmf ∧
      vmf.r1 = 0 ∧ vmf.cond = ConditionFlags.ZRO.toU16) := by
  constructor
  · intro vm dr sr1 sr2 hdr hs1 hs2
    obtain ⟨v1, h1⟩ := get_register_value_lt8 vm hs1
    obtain ⟨v2, h2⟩ := get_register_value_lt8 vm hs2
    obtain ⟨vm1, vm2, hu, hf, hgv, hcond, hpcf, hmem⟩ :=
      write_then_flags vm (wrapping_add v1 v2) hdr
    refine ⟨v1, v2, vm2, h1, h2, ?_, hgv, hcond⟩
    simp only [VM.execute, h1]
    rw [if_neg (by simp), h2]
    dsimp only
    rw [hu]
    dsimp only
    rw [hf]
  · exact ⟨_, rfl, rfl, rfl⟩

/-- Witness for C9 applying the wrapping law on the default machine. -/
theorem add_wrapping_witness :
    ∃ v1 v2 vmf, VM.default.get_register_value 0 = Except.ok v1 ∧
      VM.default.get_register_value 0 = Except.ok v2 ∧
      VM.default.execute (Opcode.ADD 0 0 false 0) = ExecResult.ok vmf ∧
      vmf.get_register_value 0 = Except.ok ((v1 + v2) % MEMORY_MAX) ∧
      vmf.cond = new_flag_value ((v1 + v2) % MEMORY_MAX) :=
  add_wrapping.1 VM.default 0 0 0 (by decide) (by decide) (by decide)

end LC3
